import Mathlib

-- Verification development for the blockchaininsper backend.
-- The repository stores all persistent state as JSON documents on disk and
-- every route handler follows a read-file / mutate / write-file pattern.
-- We embed the JSON data model, the file-backed loaders, the entity
-- repositories (events, news, messages, contacts, administrators), the
-- authentication handlers and the backup/restore manager as executable Lean
-- functions, translated clause by clause from the JavaScript source.
-- File writes are modelled as explicit effect lists; fallible writes are
-- modelled by an explicit write-outcome parameter, matching the source's
-- boolean-returning save helpers.

-- ## JSON values
-- Files hold JSON documents; handlers parse them on read and serialize with
-- a fixed pretty-printing (JSON.stringify with indent 2) on write, so two
-- files are byte-identical modulo whitespace exactly when their parsed
-- values are equal.  We therefore model file contents at the value level.

inductive Json where
  | null
  | bool (b : Bool)
  | num (n : Int)
  | str (s : String)
  | arr (elems : List Json)
  | obj (fields : List (String × Json))

-- JavaScript truthiness of a JSON value (undefined is handled by Option).
def Json.truthy : Json → Bool
  | .null => false
  | .bool b => b
  | .num n => n != 0
  | .str s => s != ""
  | .arr _ => true
  | .obj _ => true

def truthyOpt : Option Json → Bool
  | none => false
  | some v => v.truthy

-- Member access `doc.key` on a parsed JSON document (undefined when absent
-- or when the document is not an object).
def Json.getField : Json → String → Option Json
  | .obj fields, k => (fields.find? (fun p => p.1 == k)).map (fun p => p.2)
  | _, _ => none

-- `value || dflt` on JSON values.
def jsOr (o : Option Json) (dflt : Json) : Json :=
  match o with
  | some v => if v.truthy then v else dflt
  | none => dflt

-- `if (s) target = s` : a string field applied only when truthy.
def jsStrOr (o : Option String) (dflt : String) : String :=
  match o with
  | some s => if s == "" then dflt else s
  | none => dflt

-- ## File effects and fallible I/O outcomes

inductive Eff where
  | writeFile (path : String) (v : Json)

inductive ReadResult where
  | ok (v : Json)
  | failure

inductive WriteResult where
  | ok
  | failure
deriving DecidableEq

-- ## Collection-store loaders (one per source file)

-- routes/admin.js readJsonFile: on read/parse failure the default is written
-- back WITHOUT an inner try/catch, so a failing default-write propagates
-- (the load rejects and the caller's catch answers 500).
def readJsonFile (path : String) (defaultValue : Json) (r : ReadResult) (w : WriteResult) :
    List Eff × Except Unit Json :=
  match r with
  | .ok v => ([], .ok v)
  | .failure =>
    match w with
    | .ok => ([Eff.writeFile path defaultValue], .ok defaultValue)
    | .failure => ([], .error ())

-- routes/eventos lerEventos: default-write wrapped in an inner try/catch, so
-- a failing write is logged and the default is still returned.
def lerEventos (r : ReadResult) (w : WriteResult) : List Eff × Json :=
  match r with
  | .ok v => ([], v)
  | .failure =>
    match w with
    | .ok => ([Eff.writeFile "data/eventos.json" (Json.arr [])], Json.arr [])
    | .failure => ([], Json.arr [])

-- routes/noticias lerNoticias: same recovery shape as lerEventos.
def lerNoticias (r : ReadResult) (w : WriteResult) : List Eff × Json :=
  match r with
  | .ok v => ([], v)
  | .failure =>
    match w with
    | .ok => ([Eff.writeFile "data/noticias.json" (Json.arr [])], Json.arr [])
    | .failure => ([], Json.arr [])

-- routes/contatos.js lerContatos default object.
def contatosDefault (now : String) : Json :=
  Json.obj
    [("email", Json.str "contato@blockchaininsper.com.br"),
     ("telefone", Json.str "(11) 3000-0000"),
     ("endereco", Json.str "Rua Quatá, 300 - Vila Olímpia, São Paulo - SP, 04546-042"),
     ("horarioFuncionamento", Json.str "Segunda a Sexta: 8h às 18h"),
     ("redesSociais", Json.obj
       [("linkedin", Json.str "https://linkedin.com/company/blockchain-insper"),
        ("instagram", Json.str "https://instagram.com/blockchaininsper"),
        ("twitter", Json.str "https://twitter.com/blockchaininsper")]),
     ("atualizadoEm", Json.str now)]

def lerContatos (now : String) (r : ReadResult) (w : WriteResult) : List Eff × Json :=
  match r with
  | .ok v => ([], v)
  | .failure =>
    match w with
    | .ok => ([Eff.writeFile "data/contatos.json" (contatosDefault now)], contatosDefault now)
    | .failure => ([], contatosDefault now)

-- routes/admins.js / routes/auth.js lerAdmins bootstrap document: a single
-- active super_admin with the configured email and a bcrypt-hashed password.
def adminsDefaultJson (hashedPw now : String) : Json :=
  Json.arr
    [Json.obj
      [("id", Json.num 1),
       ("nome", Json.str "Administrador Principal"),
       ("email", Json.str "admin@blockchaininsper.com.br"),
       ("senha", Json.str hashedPw),
       ("role", Json.str "super_admin"),
       ("ativo", Json.bool true),
       ("criadoEm", Json.str now),
       ("atualizadoEm", Json.str now),
       ("ultimoLogin", Json.null)]]

def lerAdmins (hashedPw now : String) (r : ReadResult) (w : WriteResult) : List Eff × Json :=
  match r with
  | .ok v => ([], v)
  | .failure =>
    match w with
    | .ok => ([Eff.writeFile "data/admins.json" (adminsDefaultJson hashedPw now)],
              adminsDefaultJson hashedPw now)
    | .failure => ([], adminsDefaultJson hashedPw now)

-- routes/contatos.js lerMensagens: on failure it only returns [] and never
-- writes the default back to disk.
def lerMensagens (r : ReadResult) : List Eff × Json :=
  match r with
  | .ok v => ([], v)
  | .failure => ([], Json.arr [])

-- ## Id assignment
-- `Math.max(...collection.map(x => x.id), 0) + 1`

def novoId (ids : List Int) : Int :=
  ids.foldr max 0 + 1

-- Ids present after n successive creations starting from `ids`.
def idsAfter (ids : List Int) : Nat → List Int
  | 0 => ids
  | n + 1 => novoId (idsAfter ids n) :: idsAfter ids n

theorem le_foldr_max (ids : List Int) : ∀ x ∈ ids, x ≤ ids.foldr max 0 := by
  induction ids with
  | nil => intro x hx; cases hx
  | cons a l ih =>
    intro x hx
    rcases List.mem_cons.mp hx with h | h
    · subst h; exact le_max_left _ _
    · exact le_trans (ih x h) (le_max_right _ _)

-- ## Generic list-update helpers (findIndex-then-mutate / splice patterns)

def updateFirst {α : Type} (p : α → Bool) (f : α → α) : List α → List α
  | [] => []
  | x :: xs => if p x then f x :: xs else x :: updateFirst p f xs

def eraseFirst {α : Type} (p : α → Bool) : List α → List α
  | [] => []
  | x :: xs => if p x then xs else x :: eraseFirst p xs

-- ## HTTP response statuses used by the handlers

inductive Resp where
  | ok
  | created
  | badRequest
  | notFound
  | unauthorized
  | forbidden
  | serverError
deriving DecidableEq

def isOkResp : Resp → Bool
  | .ok => true
  | .created => true
  | _ => false

-- `const salvou = await save(x); if (!salvou) return 500; return success`
def gateSave {σ : Type} (saveOk : Bool) (okResp : Resp) (newSt oldSt : σ) : Resp × σ :=
  if saveOk then (okResp, newSt) else (.serverError, oldSt)

-- ## Administrators (routes/admins.js, routes/auth.js)

structure Admin where
  id : Int
  nome : String
  email : String
  senha : String
  role : String
  ativo : Bool
  criadoEm : String
  atualizadoEm : String
  ultimoLogin : Option String
deriving DecidableEq

-- PUT /api/admins/:id body (absent fields are `none`; the route reads only
-- nome, email, role, ativo from the body).
structure AdminUpdate where
  nome : Option String
  email : Option String
  role : Option String
  ativo : Option Bool

-- middlewares/auth.js requireAdmin: role admin or super_admin.
def requireAdmin (role : String) : Bool :=
  role == "admin" || role == "super_admin"

-- Number of active super administrators (the invariant the spec states).
def countActiveSupers (l : List Admin) : Nat :=
  (l.filter (fun x => x.role == "super_admin" && x.ativo)).length

-- Field application of PUT /api/admins/:id: nome/email/role guarded by
-- truthiness, ativo by `typeof ativo === 'boolean'`, updatedEm stamped.
def applyAdminUpdate (u : AdminUpdate) (now : String) (a : Admin) : Admin :=
  { a with
    nome := jsStrOr u.nome a.nome,
    email := jsStrOr u.email a.email,
    role := jsStrOr u.role a.role,
    ativo := match u.ativo with | some b => b | none => a.ativo,
    atualizadoEm := now }

-- `if (email && email !== current) { duplicate check }`
def emailConflict (u : AdminUpdate) (a : Admin) (admins : List Admin) (id : Int) : Bool :=
  match u.email with
  | some e => e != "" && e != a.email
      && (admins.find? (fun x => x.email == e && x.id != id)).isSome
  | none => false

-- PUT /api/admins/:id
def putAdmin (admins : List Admin) (id : Int) (u : AdminUpdate) (now : String)
    (saveOk : Bool) : Resp × List Admin :=
  match admins.find? (fun a => a.id == id) with
  | none => (.notFound, admins)
  | some a =>
    if a.role == "super_admin" && u.ativo == some false
        && (admins.filter (fun x => x.role == "super_admin" && x.ativo && x.id != id)).length == 0
    then (.badRequest, admins)
    else if emailConflict u a admins id
    then (.badRequest, admins)
    else gateSave saveOk .ok (updateFirst (fun x => x.id == id) (applyAdminUpdate u now) admins) admins

-- DELETE /api/admins/:id (note: the guard counts the other super_admins
-- whether or not they are active).
def deleteAdmin (admins : List Admin) (id : Int) (saveOk : Bool) : Resp × List Admin :=
  match admins.find? (fun a => a.id == id) with
  | none => (.notFound, admins)
  | some a =>
    if a.role == "super_admin"
        && (admins.filter (fun x => x.role == "super_admin" && x.id != id)).length == 0
    then (.badRequest, admins)
    else gateSave saveOk .ok (eraseFirst (fun x => x.id == id) admins) admins

-- PUT /api/admins/:id/password (runs behind authenticateToken + requireAdmin;
-- `hash` stands for bcrypt.hash with its salt fixed by the run).
def changePasswordAdmin (admins : List Admin) (id : Int) (novaSenha : Option String)
    (hash : String → String) (now : String) (saveOk : Bool) : Resp × List Admin :=
  match novaSenha with
  | none => (.badRequest, admins)
  | some s =>
    if s.length < 8 then (.badRequest, admins)
    else match admins.find? (fun a => a.id == id) with
      | none => (.notFound, admins)
      | some _ =>
        gateSave saveOk .ok
          (updateFirst (fun x => x.id == id)
            (fun a => { a with senha := hash s, atualizadoEm := now }) admins) admins

-- The route including its middleware gate.
def routePasswordChange (callerRole : String) (admins : List Admin) (id : Int)
    (novaSenha : Option String) (hash : String → String) (now : String)
    (saveOk : Bool) : Resp × List Admin :=
  if requireAdmin callerRole then changePasswordAdmin admins id novaSenha hash now saveOk
  else (.forbidden, admins)

-- POST /api/admins (validations in source order; `emailValid` models the
-- regex from the source, defined below).
def isEmailChar (c : Char) : Bool :=
  !c.isWhitespace && c != '@'

-- test of /^[^\s@]+@[^\s@]+\.[^\s@]+$/ : local part, an at sign, then a
-- domain containing a dot with nonempty pieces on both sides.
def emailValid (s : String) : Bool :=
  let cs := s.toList
  let localPart := cs.takeWhile isEmailChar
  match cs.drop localPart.length with
  | '@' :: rest =>
    !localPart.isEmpty && rest.all isEmailChar && ((rest.drop 1).dropLast.contains '.')
  | _ => false

def criaAdmin (admins : List Admin) (nome email senha role : Option String)
    (hash : String → String) (now : String) (saveOk : Bool) : Resp × List Admin :=
  match nome, email, senha with
  | some nm, some em, some pw =>
    if nm == "" || em == "" || pw == "" then (.badRequest, admins)
    else if !emailValid em then (.badRequest, admins)
    else if pw.length < 8 then (.badRequest, admins)
    else if (admins.find? (fun a => a.email == em)).isSome then (.badRequest, admins)
    else
      gateSave saveOk .created
        (admins ++ [{ id := novoId (admins.map (fun a => a.id)), nome := nm, email := em,
                      senha := hash pw,
                      role := (match role with | some r => r | none => "admin"),
                      ativo := true, criadoEm := now, atualizadoEm := now,
                      ultimoLogin := none }]) admins
  | _, _, _ => (.badRequest, admins)

-- ## Authentication handlers (routes/auth.js)

inductive LoginResp where
  | success (id : Int)
  | badRequest
  | unauthorized
deriving DecidableEq

def isOkLogin : LoginResp → Bool
  | .success _ => true
  | _ => false

-- POST /api/auth/login.  The result of the last-login `salvarAdmins` is not
-- inspected by the source, so the second component (the persisted admins
-- file) depends on saveOk while the response does not.
def login (admins : List Admin) (email password : String)
    (verify : String → String → Bool) (now : String) (saveOk : Bool) :
    LoginResp × List Admin :=
  if email == "" || password == "" then (.badRequest, admins)
  else match admins.find? (fun a => a.email == email && a.ativo) with
  | none => (.unauthorized, admins)
  | some a =>
    if !verify password a.senha then (.unauthorized, admins)
    else
      (.success a.id,
       if saveOk
       then updateFirst (fun x => x.id == a.id)
              (fun x => { x with ultimoLogin := some now }) admins
       else admins)

-- POST /api/auth/change-password.
def authChangePassword (admins : List Admin) (userId : Int)
    (currentPassword newPassword : Option String)
    (verify : String → String → Bool) (hash : String → String) (now : String)
    (saveOk : Bool) : Resp × List Admin :=
  match currentPassword, newPassword with
  | some c, some n =>
    if c == "" || n == "" then (.badRequest, admins)
    else if n.length < 8 then (.badRequest, admins)
    else match admins.find? (fun a => a.id == userId) with
      | none => (.notFound, admins)
      | some a =>
        if !verify c a.senha then (.unauthorized, admins)
        else
          gateSave saveOk .ok
            (updateFirst (fun x => x.id == userId)
              (fun x => { x with senha := hash n, atualizadoEm := now }) admins) admins
  | _, _ => (.badRequest, admins)

-- ## Events (routes/eventos.js)

structure Evento where
  id : Int
  titulo : Json
  descricao : Json
  data : Json
  local_ : Json
  participantes : Json
  categoria : Json
  imagem : Json
  destaque : Json
  ativo : Json
  dataFormatada : String
  criadoEm : String
  atualizadoEm : String

-- POST /api/eventos body fields (absent keys are none).
structure EventoInput where
  titulo : Option Json
  descricao : Option Json
  data : Option Json
  local_ : Option Json
  participantes : Option Json
  categoria : Option Json
  imagem : Option Json
  destaque : Option Json

def eventoImagemDefault : Json :=
  Json.str "https://images.unsplash.com/photo-1560472354-b33ff0c44a43?ixlib=rb-4.0.3&auto=format&fit=crop&w=1000&q=80"

-- POST /api/eventos (`fmt` models new Date(v).toLocaleDateString('pt-BR',...)).
def criaEvento (eventos : List Evento) (i : EventoInput) (fmt : Json → String)
    (now : String) (saveOk : Bool) : Resp × List Evento :=
  if !(truthyOpt i.titulo && truthyOpt i.descricao && truthyOpt i.data
       && truthyOpt i.local_ && truthyOpt i.categoria)
  then (.badRequest, eventos)
  else
    gateSave saveOk .created
      (eventos ++ [{ id := novoId (eventos.map (fun e => e.id)),
                     titulo := i.titulo.getD Json.null,
                     descricao := i.descricao.getD Json.null,
                     data := i.data.getD Json.null,
                     local_ := i.local_.getD Json.null,
                     participantes := jsOr i.participantes (Json.str "0"),
                     categoria := i.categoria.getD Json.null,
                     imagem := jsOr i.imagem eventoImagemDefault,
                     destaque := i.destaque.getD (Json.bool false),
                     ativo := Json.bool true,
                     dataFormatada := fmt (i.data.getD Json.null),
                     criadoEm := now, atualizadoEm := now }]) eventos

-- PUT /api/eventos/:id body restricted to the camposPermitidos whitelist.
structure EventoUpdate where
  titulo : Option Json
  descricao : Option Json
  data : Option Json
  local_ : Option Json
  participantes : Option Json
  categoria : Option Json
  imagem : Option Json
  destaque : Option Json
  ativo : Option Json

-- camposPermitidos loop (`!== undefined` guard), then the dataFormatada
-- re-derivation (`if (updateData.data)`, a truthiness check), then the
-- updatedEm stamp.
def applyEventoUpdate (u : EventoUpdate) (fmt : Json → String) (now : String)
    (e : Evento) : Evento :=
  let e1 := { e with
    titulo := u.titulo.getD e.titulo,
    descricao := u.descricao.getD e.descricao,
    data := u.data.getD e.data,
    local_ := u.local_.getD e.local_,
    participantes := u.participantes.getD e.participantes,
    categoria := u.categoria.getD e.categoria,
    imagem := u.imagem.getD e.imagem,
    destaque := u.destaque.getD e.destaque,
    ativo := u.ativo.getD e.ativo }
  let e2 := if truthyOpt u.data then { e1 with dataFormatada := fmt (u.data.getD Json.null) } else e1
  { e2 with atualizadoEm := now }

-- PUT /api/eventos/:id
def atualizaEvento (eventos : List Evento) (id : Int) (u : EventoUpdate)
    (fmt : Json → String) (now : String) (saveOk : Bool) : Resp × List Evento :=
  match eventos.find? (fun e => e.id == id) with
  | none => (.notFound, eventos)
  | some _ =>
    gateSave saveOk .ok
      (updateFirst (fun e => e.id == id) (applyEventoUpdate u fmt now) eventos) eventos

-- DELETE /api/eventos/:id (soft delete).
def excluiEvento (eventos : List Evento) (id : Int) (now : String)
    (saveOk : Bool) : Resp × List Evento :=
  match eventos.find? (fun e => e.id == id) with
  | none => (.notFound, eventos)
  | some _ =>
    gateSave saveOk .ok
      (updateFirst (fun e => e.id == id)
        (fun e => { e with ativo := Json.bool false, atualizadoEm := now }) eventos) eventos

-- ## News (routes/noticias.js)

structure Noticia where
  id : Int
  titulo : Json
  resumo : Json
  conteudo : Json
  data : Json
  autor : Json
  categoria : Json
  imagem : Json
  link : Json
  destaque : Json
  ativo : Json
  dataFormatada : String
  criadoEm : String
  atualizadoEm : String

structure NoticiaInput where
  titulo : Option Json
  resumo : Option Json
  conteudo : Option Json
  data : Option Json
  autor : Option Json
  categoria : Option Json
  imagem : Option Json
  link : Option Json
  destaque : Option Json

def noticiaImagemDefault : Json :=
  Json.str "https://images.unsplash.com/photo-1639762681485-074b7f938ba0?ixlib=rb-4.0.3&auto=format&fit=crop&w=1000&q=80"

-- POST /api/noticias (`today` models new Date().toISOString().split('T')[0]).
def criaNoticia (noticias : List Noticia) (i : NoticiaInput) (fmt : Json → String)
    (today now : String) (saveOk : Bool) : Resp × List Noticia :=
  if !(truthyOpt i.titulo && truthyOpt i.resumo && truthyOpt i.conteudo
       && truthyOpt i.autor && truthyOpt i.categoria)
  then (.badRequest, noticias)
  else
    gateSave saveOk .created
      (noticias ++ [{ id := novoId (noticias.map (fun n => n.id)),
                      titulo := i.titulo.getD Json.null,
                      resumo := i.resumo.getD Json.null,
                      conteudo := i.conteudo.getD Json.null,
                      data := jsOr i.data (Json.str today),
                      autor := i.autor.getD Json.null,
                      categoria := i.categoria.getD Json.null,
                      imagem := jsOr i.imagem noticiaImagemDefault,
                      link := jsOr i.link (Json.str "#"),
                      destaque := i.destaque.getD (Json.bool false),
                      ativo := Json.bool true,
                      dataFormatada := fmt (jsOr i.data (Json.str today)),
                      criadoEm := now, atualizadoEm := now }]) noticias

structure NoticiaUpdate where
  titulo : Option Json
  resumo : Option Json
  conteudo : Option Json
  data : Option Json
  autor : Option Json
  categoria : Option Json
  imagem : Option Json
  link : Option Json
  destaque : Option Json
  ativo : Option Json

def applyNoticiaUpdate (u : NoticiaUpdate) (fmt : Json → String) (now : String)
    (n : Noticia) : Noticia :=
  let n1 := { n with
    titulo := u.titulo.getD n.titulo,
    resumo := u.resumo.getD n.resumo,
    conteudo := u.conteudo.getD n.conteudo,
    data := u.data.getD n.data,
    autor := u.autor.getD n.autor,
    categoria := u.categoria.getD n.categoria,
    imagem := u.imagem.getD n.imagem,
    link := u.link.getD n.link,
    destaque := u.destaque.getD n.destaque,
    ativo := u.ativo.getD n.ativo }
  let n2 := if truthyOpt u.data then { n1 with dataFormatada := fmt (u.data.getD Json.null) } else n1
  { n2 with atualizadoEm := now }

def atualizaNoticia (noticias : List Noticia) (id : Int) (u : NoticiaUpdate)
    (fmt : Json → String) (now : String) (saveOk : Bool) : Resp × List Noticia :=
  match noticias.find? (fun n => n.id == id) with
  | none => (.notFound, noticias)
  | some _ =>
    gateSave saveOk .ok
      (updateFirst (fun n => n.id == id) (applyNoticiaUpdate u fmt now) noticias) noticias

def excluiNoticia (noticias : List Noticia) (id : Int) (now : String)
    (saveOk : Bool) : Resp × List Noticia :=
  match noticias.find? (fun n => n.id == id) with
  | none => (.notFound, noticias)
  | some _ =>
    gateSave saveOk .ok
      (updateFirst (fun n => n.id == id)
        (fun n => { n with ativo := Json.bool false, atualizadoEm := now }) noticias) noticias

-- ## Contact info and contact messages (routes/contatos.js)

structure ContatoInfo where
  email : Json
  telefone : Json
  endereco : Json
  horarioFuncionamento : Json
  redesSociais : Json
  atualizadoEm : String

-- PUT /api/contatos: wholesale overwrite after validating required fields.
def atualizaContatos (prev : ContatoInfo)
    (email telefone endereco horario redes : Option Json) (now : String)
    (saveOk : Bool) : Resp × ContatoInfo :=
  if !(truthyOpt email && truthyOpt telefone && truthyOpt endereco)
  then (.badRequest, prev)
  else
    gateSave saveOk .ok
      { email := email.getD Json.null, telefone := telefone.getD Json.null,
        endereco := endereco.getD Json.null,
        horarioFuncionamento := jsOr horario (Json.str "Segunda a Sexta: 8h às 18h"),
        redesSociais := jsOr redes (Json.obj []),
        atualizadoEm := now } prev

structure Mensagem where
  id : Int
  nome : Json
  email : Json
  mensagem : Json
  dataEnvio : String
  lida : Bool
  respondida : Bool
  atualizadaEm : Option String

def emailValidJson (j : Option Json) : Bool :=
  match j with
  | some (Json.str s) => emailValid s
  | _ => false

-- POST /api/contatos/mensagem (public submission).
def criaMensagem (msgs : List Mensagem) (nome email mensagem : Option Json)
    (now : String) (saveOk : Bool) : Resp × List Mensagem :=
  if !(truthyOpt nome && truthyOpt email && truthyOpt mensagem)
  then (.badRequest, msgs)
  else if !emailValidJson email then (.badRequest, msgs)
  else
    gateSave saveOk .ok
      (msgs ++ [{ id := novoId (msgs.map (fun m => m.id)),
                  nome := nome.getD Json.null, email := email.getD Json.null,
                  mensagem := mensagem.getD Json.null,
                  dataEnvio := now, lida := false, respondida := false,
                  atualizadaEm := none }]) msgs

-- PUT /api/contatos/mensagens/:id.
def atualizaMensagem (msgs : List Mensagem) (id : Int)
    (lida respondida : Option Bool) (now : String) (saveOk : Bool) :
    Resp × List Mensagem :=
  match msgs.find? (fun m => m.id == id) with
  | none => (.notFound, msgs)
  | some _ =>
    gateSave saveOk .ok
      (updateFirst (fun m => m.id == id)
        (fun m => { m with
          lida := match lida with | some b => b | none => m.lida,
          respondida := match respondida with | some b => b | none => m.respondida,
          atualizadaEm := some now }) msgs) msgs

-- DELETE /api/contatos/mensagens/:id (hard delete).
def excluiMensagem (msgs : List Mensagem) (id : Int) (saveOk : Bool) :
    Resp × List Mensagem :=
  match msgs.find? (fun m => m.id == id) with
  | none => (.notFound, msgs)
  | some _ => gateSave saveOk .ok (eraseFirst (fun m => m.id == id) msgs) msgs

-- ## Backup/restore manager (routes/admin.js)

-- The backup directory as a map from filename to parsed document content.
def writeB (files : List (String × Json)) (name : String) (v : Json) :
    List (String × Json) :=
  files.filter (fun p => p.1 != name) ++ [(name, v)]

def lookupFile (files : List (String × Json)) (name : String) : Option Json :=
  (files.find? (fun p => p.1 == name)).map (fun p => p.2)

structure DataState where
  eventos : Json
  noticias : Json
  backups : List (String × Json)

inductive RestoreResp where
  | badRequest
  | notFound
  | ok
deriving DecidableEq

-- `{ timestamp, eventos, noticias }` document written by both the backup
-- route and the pre-restore safety snapshot.
def snapshotDoc (st : DataState) (tsIso : String) : Json :=
  Json.obj [("timestamp", Json.str tsIso), ("eventos", st.eventos), ("noticias", st.noticias)]

-- POST /api/admin/backup.  `tsEnc` is the hyphen-encoded instant used in the
-- filename and `tsIso` the ISO instant stored in the document.
def createBackup (st : DataState) (tsEnc tsIso : String) :
    String × DataState × List Eff :=
  let doc := snapshotDoc st tsIso
  let fname := "backup-" ++ tsEnc ++ ".json"
  (fname,
   { st with backups := writeB st.backups fname doc },
   [Eff.writeFile ("backups/" ++ fname) doc])

-- POST /api/admin/restore.
def restore (st : DataState) (filename : Option String) (tsEnc tsIso : String) :
    RestoreResp × DataState × List Eff :=
  match filename with
  | none => (.badRequest, st, [])
  | some f =>
    if f == "" then (.badRequest, st, [])
    else match lookupFile st.backups f with
    | none => (.notFound, st, [])
    | some backup =>
      if truthyOpt (backup.getField "eventos") && truthyOpt (backup.getField "noticias") then
        let ev := (backup.getField "eventos").getD Json.null
        let nt := (backup.getField "noticias").getD Json.null
        let snap := snapshotDoc st tsIso
        let snapName := "backup-before-restore-" ++ tsEnc ++ ".json"
        (.ok,
         { eventos := ev, noticias := nt, backups := writeB st.backups snapName snap },
         [Eff.writeFile ("backups/" ++ snapName) snap,
          Eff.writeFile "data/eventos.json" ev,
          Eff.writeFile "data/noticias.json" nt])
      else (.badRequest, st, [])

-- ## Backup-filename timestamp codec (routes/admin.js lines 204 and 264-297)

-- Decimal rendering of a number left-padded with zeros to width k.
def padNum (k n : Nat) : List Char :=
  let ds := ((Nat.digits 10 n).map Nat.digitChar).reverse
  List.replicate (k - ds.length) '0' ++ ds

-- The characters of new Date(...).toISOString(): YYYY-MM-DDTHH:MM:SS.mmmZ.
def isoChars (y mo d h mi s ms : Nat) : List Char :=
  padNum 4 y ++ '-' :: padNum 2 mo ++ '-' :: padNum 2 d
    ++ 'T' :: padNum 2 h ++ ':' :: padNum 2 mi ++ ':' :: padNum 2 s
    ++ '.' :: padNum 3 ms ++ ['Z']

-- `.replace(/[:.]/g, '-')` applied character by character.
def encodeChar (c : Char) : Char :=
  if c == ':' || c == '.' then '-' else c

def encodeTimestamp (cs : List Char) : List Char :=
  cs.map encodeChar

-- String.prototype.split(sep) on character lists.
def splitOnChar (sep : Char) : List Char → List (List Char)
  | [] => [[]]
  | c :: cs =>
    if c = sep then [] :: splitOnChar sep cs
    else
      match splitOnChar sep cs with
      | [] => [[c]]
      | g :: gs => (c :: g) :: gs

-- String.prototype.replace with a plain (non-global) pattern: drop the
-- first occurrence of the character.
def removeFirst (t : Char) : List Char → List Char
  | [] => []
  | c :: cs => if c = t then cs else c :: removeFirst t cs

-- The timestamp-parsing step of GET /api/admin/backups: reconstructs the
-- ISO instant from the hyphen-encoded filename timestamp.  With a T and a Z
-- present, the time portion's four hyphen-separated components become
-- HH:MM:SS.mmm (a fallback turns every remaining hyphen into a colon); the
-- outer fallback passes a differently-derived string straight to the Date
-- constructor and is modelled as no ISO reconstruction.
def decodeTimestamp (ts : List Char) : Option (List Char) :=
  if ('T' ∈ ts) ∧ ('Z' ∈ ts) then
    let parts := splitOnChar 'T' ts
    let datePart := parts.headD []
    let timePart := removeFirst 'Z' ((parts.drop 1).headD [])
    let comps := splitOnChar '-' timePart
    if comps.length == 4 then
      some (datePart ++ 'T' :: (comps.headD [] ++ ':' :: (comps.drop 1).headD []
        ++ ':' :: (comps.drop 2).headD [] ++ '.' :: (comps.drop 3).headD []) ++ ['Z'])
    else
      some (datePart ++ 'T'
        :: timePart.map (fun c => if c == '-' then ':' else c) ++ ['Z'])
  else none

-- ## Shared concrete sample data

def sampleSuper : Admin :=
  { id := 1, nome := "Administrador Principal",
    email := "admin@blockchaininsper.com.br", senha := "hash0",
    role := "super_admin", ativo := true, criadoEm := "t0",
    atualizadoEm := "t0", ultimoLogin := none }

-- ## Supporting lemmas

theorem find?_updateFirst {α : Type} (p : α → Bool) (f : α → α) (l : List α)
    (a : α) (h : l.find? p = some a) (hf : ∀ x, p x = true → p (f x) = true) :
    (updateFirst p f l).find? p = some (f a) := by
  induction l with
  | nil => simp [List.find?] at h
  | cons x xs ih =>
    by_cases hx : p x = true
    · rw [List.find?_cons_of_pos _ hx] at h
      rw [Option.some_inj] at h
      subst h
      unfold updateFirst
      rw [if_pos hx]
      exact List.find?_cons_of_pos _ (hf x hx)
    · rw [List.find?_cons_of_neg _ hx] at h
      unfold updateFirst
      rw [if_neg hx, List.find?_cons_of_neg _ hx]
      exact ih h

theorem criaEvento_save_checked (evs : List Evento) (i : EventoInput)
    (fmt : Json → String) (now : String) :
    isOkResp (criaEvento evs i fmt now false).1 = false
    ∧ ((criaEvento evs i fmt now true).1 = Resp.created →
        (criaEvento evs i fmt now false).1 = Resp.serverError) := by
  constructor
  · unfold criaEvento
    repeat' split
    all_goals simp [gateSave, isOkResp]
  · intro h
    unfold criaEvento at h ⊢
    repeat' split at h
    all_goals repeat' split
    all_goals first
      | omega
      | simp_all [gateSave, isOkResp]

theorem atualizaEvento_save_checked (evs : List Evento) (id : Int)
    (u : EventoUpdate) (fmt : Json → String) (now : String) :
    isOkResp (atualizaEvento evs id u fmt now false).1 = false
    ∧ ((atualizaEvento evs id u fmt now true).1 = Resp.ok →
        (atualizaEvento evs id u fmt now false).1 = Resp.serverError) := by
  constructor
  · unfold atualizaEvento
    repeat' split
    all_goals simp [gateSave, isOkResp]
  · intro h
    unfold atualizaEvento at h ⊢
    repeat' split at h
    all_goals repeat' split
    all_goals first
      | omega
      | simp_all [gateSave, isOkResp]

theorem excluiEvento_save_checked (evs : List Evento) (id : Int) (now : String) :
    isOkResp (excluiEvento evs id now false).1 = false
    ∧ ((excluiEvento evs id now true).1 = Resp.ok →
        (excluiEvento evs id now false).1 = Resp.serverError) := by
  constructor
  · unfold excluiEvento
    repeat' split
    all_goals simp [gateSave, isOkResp]
  · intro h
    unfold excluiEvento at h ⊢
    repeat' split at h
    all_goals repeat' split
    all_goals first
      | omega
      | simp_all [gateSave, isOkResp]

theorem criaNoticia_save_checked (ns : List Noticia) (i : NoticiaInput)
    (fmt : Json → String) (today now : String) :
    isOkResp (criaNoticia ns i fmt today now false).1 = false
    ∧ ((criaNoticia ns i fmt today now true).1 = Resp.created →
        (criaNoticia ns i fmt today now false).1 = Resp.serverError) := by
  constructor
  · unfold criaNoticia
    repeat' split
    all_goals simp [gateSave, isOkResp]
  · intro h
    unfold criaNoticia at h ⊢
    repeat' split at h
    all_goals repeat' split
    all_goals first
      | omega
      | simp_all [gateSave, isOkResp]

theorem atualizaNoticia_save_checked (ns : List Noticia) (id : Int)
    (u : NoticiaUpdate) (fmt : Json → String) (now : String) :
    isOkResp (atualizaNoticia ns id u fmt now false).1 = false
    ∧ ((atualizaNoticia ns id u fmt now true).1 = Resp.ok →
        (atualizaNoticia ns id u fmt now false).1 = Resp.serverError) := by
  constructor
  · unfold atualizaNoticia
    repeat' split
    all_goals simp [gateSave, isOkResp]
  · intro h
    unfold atualizaNoticia at h ⊢
    repeat' split at h
    all_goals repeat' split
    all_goals first
      | omega
      | simp_all [gateSave, isOkResp]

theorem excluiNoticia_save_checked (ns : List Noticia) (id : Int) (now : String) :
    isOkResp (excluiNoticia ns id now false).1 = false
    ∧ ((excluiNoticia ns id now true).1 = Resp.ok →
        (excluiNoticia ns id now false).1 = Resp.serverError) := by
  constructor
  · unfold excluiNoticia
    repeat' split
    all_goals simp [gateSave, isOkResp]
  · intro h
    unfold excluiNoticia at h ⊢
    repeat' split at h
    all_goals repeat' split
    all_goals first
      | omega
      | simp_all [gateSave, isOkResp]

theorem atualizaContatos_save_checked (prev : ContatoInfo)
    (email telefone endereco horario redes : Option Json) (now : String) :
    isOkResp (atualizaContatos prev email telefone endereco horario redes now false).1 = false
    ∧ ((atualizaContatos prev email telefone endereco horario redes now true).1 = Resp.ok →
        (atualizaContatos prev email telefone endereco horario redes now false).1 = Resp.serverError) := by
  constructor
  · unfold atualizaContatos
    repeat' split
    all_goals simp [gateSave, isOkResp]
  · intro h
    unfold atualizaContatos at h ⊢
    repeat' split at h
    all_goals repeat' split
    all_goals first
      | omega
      | simp_all [gateSave, isOkResp]

theorem criaMensagem_save_checked (msgs : List Mensagem)
    (nome email mensagem : Option Json) (now : String) :
    isOkResp (criaMensagem msgs nome email mensagem now false).1 = false
    ∧ ((criaMensagem msgs nome email mensagem now true).1 = Resp.ok →
        (criaMensagem msgs nome email mensagem now false).1 = Resp.serverError) := by
  constructor
  · unfold criaMensagem
    repeat' split
    all_goals simp [gateSave, isOkResp]
  · intro h
    unfold criaMensagem at h ⊢
    repeat' split at h
    all_goals repeat' split
    all_goals first
      | omega
      | simp_all [gateSave, isOkResp]

theorem atualizaMensagem_save_checked (msgs : List Mensagem) (id : Int)
    (lida respondida : Option Bool) (now : String) :
    isOkResp (atualizaMensagem msgs id lida respondida now false).1 = false
    ∧ ((atualizaMensagem msgs id lida respondida now true).1 = Resp.ok →
        (atualizaMensagem msgs id lida respondida now false).1 = Resp.serverError) := by
  constructor
  · unfold atualizaMensagem
    repeat' split
    all_goals simp [gateSave, isOkResp]
  · intro h
    unfold atualizaMensagem at h ⊢
    repeat' split at h
    all_goals repeat' split
    all_goals first
      | omega
      | simp_all [gateSave, isOkResp]

theorem excluiMensagem_save_checked (msgs : List Mensagem) (id : Int) :
    isOkResp (excluiMensagem msgs id false).1 = false
    ∧ ((excluiMensagem msgs id true).1 = Resp.ok →
        (excluiMensagem msgs id false).1 = Resp.serverError) := by
  constructor
  · unfold excluiMensagem
    repeat' split
    all_goals simp [gateSave, isOkResp]
  · intro h
    unfold excluiMensagem at h ⊢
    repeat' split at h
    all_goals repeat' split
    all_goals first
      | omega
      | simp_all [gateSave, isOkResp]

theorem criaAdmin_save_checked (admins : List Admin)
    (nome email senha role : Option String) (hash : String → String) (now : String) :
    isOkResp (criaAdmin admins nome email senha role hash now false).1 = false
    ∧ ((criaAdmin admins nome email senha role hash now true).1 = Resp.created →
        (criaAdmin admins nome email senha role hash now false).1 = Resp.serverError) := by
  constructor
  · unfold criaAdmin
    repeat' split
    all_goals simp [gateSave, isOkResp]
  · intro h
    unfold criaAdmin at h ⊢
    repeat' split at h
    all_goals repeat' split
    all_goals first
      | omega
      | simp_all [gateSave, isOkResp]

theorem putAdmin_save_checked (admins : List Admin) (id : Int) (u : AdminUpdate)
    (now : String) :
    isOkResp (putAdmin admins id u now false).1 = false
    ∧ ((putAdmin admins id u now true).1 = Resp.ok →
        (putAdmin admins id u now false).1 = Resp.serverError) := by
  constructor
  · unfold putAdmin
    repeat' split
    all_goals simp [gateSave, isOkResp]
  · intro h
    unfold putAdmin at h ⊢
    repeat' split at h
    all_goals repeat' split
    all_goals first
      | omega
      | simp_all [gateSave, isOkResp]

theorem deleteAdmin_save_checked (admins : List Admin) (id : Int) :
    isOkResp (deleteAdmin admins id false).1 = false
    ∧ ((deleteAdmin admins id true).1 = Resp.ok →
        (deleteAdmin admins id false).1 = Resp.serverError) := by
  constructor
  · unfold deleteAdmin
    repeat' split
    all_goals simp [gateSave, isOkResp]
  · intro h
    unfold deleteAdmin at h ⊢
    repeat' split at h
    all_goals repeat' split
    all_goals first
      | omega
      | simp_all [gateSave, isOkResp]

theorem changePasswordAdmin_save_checked (admins : List Admin) (id : Int)
    (ns : Option String) (hash : String → String) (now : String) :
    isOkResp (changePasswordAdmin admins id ns hash now false).1 = false
    ∧ ((changePasswordAdmin admins id ns hash now true).1 = Resp.ok →
        (changePasswordAdmin admins id ns hash now false).1 = Resp.serverError) := by
  constructor
  · unfold changePasswordAdmin
    repeat' split
    all_goals simp [gateSave, isOkResp]
  · intro h
    unfold changePasswordAdmin at h ⊢
    repeat' split at h
    all_goals repeat' split
    all_goals first
      | omega
      | simp_all [gateSave, isOkResp]

theorem authChangePassword_save_checked (admins : List Admin) (userId : Int)
    (cur npw : Option String) (verify : String → String → Bool)
    (hash : String → String) (now : String) :
    isOkResp (authChangePassword admins userId cur npw verify hash now false).1 = false
    ∧ ((authChangePassword admins userId cur npw verify hash now true).1 = Resp.ok →
        (authChangePassword admins userId cur npw verify hash now false).1 = Resp.serverError) := by
  constructor
  · unfold authChangePassword
    repeat' split
    all_goals simp [gateSave, isOkResp]
  · intro h
    unfold authChangePassword at h ⊢
    repeat' split at h
    all_goals repeat' split
    all_goals first
      | omega
      | simp_all [gateSave, isOkResp]

-- POST /api/auth/login never inspects the result of the last-login save: the
-- HTTP response is the same whether that save succeeded or failed.
theorem login_resp_ignores_save (admins : List Admin) (email pw : String)
    (verify : String → String → Bool) (now : String) :
    (login admins email pw verify now false).1
      = (login admins email pw verify now true).1 := by
  unfold login
  split
  · rfl
  · split
    · rfl
    · split
      · rfl
      · rfl

-- ## Claim C1

/-- C1 counterexample: the claim is false as stated.  With a single active
super_admin, PUT /api/admins/:id with body role="admin" (a role change, no
ativo field) is accepted, and afterwards no active super_admin exists: the
last-super_admin guard in the route fires only when ativo === false, so a
role change can break the invariant. -/
theorem C1_counterexample :
    (putAdmin [sampleSuper] 1
      { nome := none, email := none, role := some "admin", ativo := none }
      "t1" true).1 = Resp.ok
    ∧ countActiveSupers
        (putAdmin [sampleSuper] 1
          { nome := none, email := none, role := some "admin", ativo := none }
          "t1" true).2 = 0 := by
  exact ⟨rfl, rfl⟩

/-- C1 (amended): the guards that do exist behave as described.  If the
target of PUT /api/admins/:id is a super_admin, the body sets ativo=false
and no other active super_admin exists, the request is rejected with 400 and
the collection is unchanged; if the target of DELETE /api/admins/:id is a
super_admin and no other super_admin entry (active or not) exists, the
request is rejected with 400 and the collection is unchanged.  Role changes
are not guarded (see the counterexample), and the deletion guard counts
inactive super_admins as well. -/
theorem C1_amended (admins : List Admin) (id : Int) (u : AdminUpdate)
    (now : String) (saveOk : Bool) (a : Admin)
    (hfind : admins.find? (fun x => x.id == id) = some a)
    (hrole : a.role = "super_admin") :
    (u.ativo = some false →
      (admins.filter (fun x => x.role == "super_admin" && x.ativo && x.id != id)).length = 0 →
      putAdmin admins id u now saveOk = (Resp.badRequest, admins))
    ∧ ((admins.filter (fun x => x.role == "super_admin" && x.id != id)).length = 0 →
      deleteAdmin admins id saveOk = (Resp.badRequest, admins)) := by
  constructor
  · intro h1 h2
    simp [putAdmin, hfind, hrole, h1, h2]
  · intro h2
    simp [deleteAdmin, hfind, hrole, h2]

/-- C1 witness: with the bootstrap collection of a single active super_admin,
both a deactivation attempt and a deletion attempt are rejected with 400 and
leave the collection unchanged. -/
theorem C1_witness :
    putAdmin [sampleSuper] 1
      { nome := none, email := none, role := none, ativo := some false }
      "t1" true = (Resp.badRequest, [sampleSuper])
    ∧ deleteAdmin [sampleSuper] 1 true = (Resp.badRequest, [sampleSuper]) := by
  have h := C1_amended [sampleSuper] 1
    { nome := none, email := none, role := none, ativo := some false }
    "t1" true sampleSuper rfl rfl
  exact ⟨h.1 rfl rfl, h.2 rfl⟩

-- ## Claim C4

/-- C4 counterexample: the claim is false as stated.  lerMensagens on a
missing/unparseable file returns the default [] but performs no write at
all, and readJsonFile (routes/admin.js) does write the default but a
failure of that write aborts the load with an error instead of returning
the default. -/
theorem C4_counterexample :
    lerMensagens ReadResult.failure = ([], Json.arr [])
    ∧ readJsonFile "data/eventos.json" (Json.arr [])
        ReadResult.failure WriteResult.failure = ([], Except.error ()) := by
  exact ⟨rfl, rfl⟩

/-- C4 (amended): on a missing or unparseable file every loader returns its
default value; lerEventos, lerNoticias, lerContatos and lerAdmins also write
the default back best-effort (a write failure is logged and the default is
still returned); readJsonFile writes the default but a write failure aborts
the load; lerMensagens returns the default without writing anything. -/
theorem C4_amended (path : String) (dv : Json) (hashedPw now : String) :
    readJsonFile path dv ReadResult.failure WriteResult.ok
      = ([Eff.writeFile path dv], Except.ok dv)
    ∧ readJsonFile path dv ReadResult.failure WriteResult.failure
      = ([], Except.error ())
    ∧ lerEventos ReadResult.failure WriteResult.ok
      = ([Eff.writeFile "data/eventos.json" (Json.arr [])], Json.arr [])
    ∧ lerEventos ReadResult.failure WriteResult.failure = ([], Json.arr [])
    ∧ lerNoticias ReadResult.failure WriteResult.ok
      = ([Eff.writeFile "data/noticias.json" (Json.arr [])], Json.arr [])
    ∧ lerNoticias ReadResult.failure WriteResult.failure = ([], Json.arr [])
    ∧ lerContatos now ReadResult.failure WriteResult.ok
      = ([Eff.writeFile "data/contatos.json" (contatosDefault now)], contatosDefault now)
    ∧ lerContatos now ReadResult.failure WriteResult.failure = ([], contatosDefault now)
    ∧ lerAdmins hashedPw now ReadResult.failure WriteResult.ok
      = ([Eff.writeFile "data/admins.json" (adminsDefaultJson hashedPw now)],
         adminsDefaultJson hashedPw now)
    ∧ lerAdmins hashedPw now ReadResult.failure WriteResult.failure
      = ([], adminsDefaultJson hashedPw now)
    ∧ lerMensagens ReadResult.failure = ([], Json.arr []) := by
  exact ⟨rfl, rfl, rfl, rfl, rfl, rfl, rfl, rfl, rfl, rfl, rfl⟩

-- ## Claim C5

/-- C5 counterexample: the claim is false as stated.  POST /api/auth/login
stamps ultimoLogin and saves the admins collection, but never inspects the
save result: with the save failing, the response is still a successful
login (and the stamped last-login is silently lost). -/
theorem C5_counterexample :
    (login [sampleSuper] "admin@blockchaininsper.com.br" "pw"
      (fun _ _ => true) "t1" false).1 = LoginResp.success 1
    ∧ (login [sampleSuper] "admin@blockchaininsper.com.br" "pw"
      (fun _ _ => true) "t1" false).2 = [sampleSuper] := by
  exact ⟨rfl, rfl⟩

/-- C5 (amended): every mutating operation except the last-login stamping of
POST /api/auth/login checks the boolean result of its save and converts a
false result into a 500 StorageFailure, never reporting success; the login
route ignores the save result, so its response is identical whether the
last-login save succeeded or failed. -/
theorem C5_amended :
    (∀ admins email pw verify now,
      (login admins email pw verify now false).1
        = (login admins email pw verify now true).1)
    ∧ (∀ evs i fmt now, isOkResp (criaEvento evs i fmt now false).1 = false
        ∧ ((criaEvento evs i fmt now true).1 = Resp.created →
            (criaEvento evs i fmt now false).1 = Resp.serverError))
    ∧ (∀ evs id u fmt now, isOkResp (atualizaEvento evs id u fmt now false).1 = false
        ∧ ((atualizaEvento evs id u fmt now true).1 = Resp.ok →
            (atualizaEvento evs id u fmt now false).1 = Resp.serverError))
    ∧ (∀ evs id now, isOkResp (excluiEvento evs id now false).1 = false
        ∧ ((excluiEvento evs id now true).1 = Resp.ok →
            (excluiEvento evs id now false).1 = Resp.serverError))
    ∧ (∀ ns i fmt today now, isOkResp (criaNoticia ns i fmt today now false).1 = false
        ∧ ((criaNoticia ns i fmt today now true).1 = Resp.created →
            (criaNoticia ns i fmt today now false).1 = Resp.serverError))
    ∧ (∀ ns id u fmt now, isOkResp (atualizaNoticia ns id u fmt now false).1 = false
        ∧ ((atualizaNoticia ns id u fmt now true).1 = Resp.ok →
            (atualizaNoticia ns id u fmt now false).1 = Resp.serverError))
    ∧ (∀ ns id now, isOkResp (excluiNoticia ns id now false).1 = false
        ∧ ((excluiNoticia ns id now true).1 = Resp.ok →
            (excluiNoticia ns id now false).1 = Resp.serverError))
    ∧ (∀ prev email telefone endereco horario redes now,
        isOkResp (atualizaContatos prev email telefone endereco horario redes now false).1 = false
        ∧ ((atualizaContatos prev email telefone endereco horario redes now true).1 = Resp.ok →
            (atualizaContatos prev email telefone endereco horario redes now false).1 = Resp.serverError))
    ∧ (∀ msgs nome email mensagem now,
        isOkResp (criaMensagem msgs nome email mensagem now false).1 = false
        ∧ ((criaMensagem msgs nome email mensagem now true).1 = Resp.ok →
            (criaMensagem msgs nome email mensagem now false).1 = Resp.serverError))
    ∧ (∀ msgs id lida respondida now,
        isOkResp (atualizaMensagem msgs id lida respondida now false).1 = false
        ∧ ((atualizaMensagem msgs id lida respondida now true).1 = Resp.ok →
            (atualizaMensagem msgs id lida respondida now false).1 = Resp.serverError))
    ∧ (∀ msgs id, isOkResp (excluiMensagem msgs id false).1 = false
        ∧ ((excluiMensagem msgs id true).1 = Resp.ok →
            (excluiMensagem msgs id false).1 = Resp.serverError))
    ∧ (∀ admins nome email senha role hash now,
        isOkResp (criaAdmin admins nome email senha role hash now false).1 = false
        ∧ ((criaAdmin admins nome email senha role hash now true).1 = Resp.created →
            (criaAdmin admins nome email senha role hash now false).1 = Resp.serverError))
    ∧ (∀ admins id u now, isOkResp (putAdmin admins id u now false).1 = false
        ∧ ((putAdmin admins id u now true).1 = Resp.ok →
            (putAdmin admins id u now false).1 = Resp.serverError))
    ∧ (∀ admins id, isOkResp (deleteAdmin admins id false).1 = false
        ∧ ((deleteAdmin admins id true).1 = Resp.ok →
            (deleteAdmin admins id false).1 = Resp.serverError))
    ∧ (∀ admins id ns hash now,
        isOkResp (changePasswordAdmin admins id ns hash now false).1 = false
        ∧ ((changePasswordAdmin admins id ns hash now true).1 = Resp.ok →
            (changePasswordAdmin admins id ns hash now false).1 = Resp.serverError))
    ∧ (∀ admins userId cur npw verify hash now,
        isOkResp (authChangePassword admins userId cur npw verify hash now false).1 = false
        ∧ ((authChangePassword admins userId cur npw verify hash now true).1 = Resp.ok →
            (authChangePassword admins userId cur npw verify hash now false).1 = Resp.serverError)) := by
  refine ⟨?_, ?_, ?_, ?_, ?_, ?_, ?_, ?_, ?_, ?_, ?_, ?_, ?_, ?_, ?_, ?_⟩
  · exact fun admins email pw verify now =>
      login_resp_ignores_save admins email pw verify now
  · exact fun evs i fmt now => criaEvento_save_checked evs i fmt now
  · exact fun evs id u fmt now => atualizaEvento_save_checked evs id u fmt now
  · exact fun evs id now => excluiEvento_save_checked evs id now
  · exact fun ns i fmt today now => criaNoticia_save_checked ns i fmt today now
  · exact fun ns id u fmt now => atualizaNoticia_save_checked ns id u fmt now
  · exact fun ns id now => excluiNoticia_save_checked ns id now
  · exact fun prev email telefone endereco horario redes now =>
      atualizaContatos_save_checked prev email telefone endereco horario redes now
  · exact fun msgs nome email mensagem now =>
      criaMensagem_save_checked msgs nome email mensagem now
  · exact fun msgs id lida respondida now =>
      atualizaMensagem_save_checked msgs id lida respondida now
  · exact fun msgs id => excluiMensagem_save_checked msgs id
  · exact fun admins nome email senha role hash now =>
      criaAdmin_save_checked admins nome email senha role hash now
  · exact fun admins id u now => putAdmin_save_checked admins id u now
  · exact fun admins id => deleteAdmin_save_checked admins id
  · exact fun admins id ns hash now =>
      changePasswordAdmin_save_checked admins id ns hash now
  · exact fun admins userId cur npw verify hash now =>
      authChangePassword_save_checked admins userId cur npw verify hash now

/-- C5 witness: the save-failure conversion at a concrete input (a password
change that would succeed reports 500 when the save fails) together with the
login exception at a concrete input. -/
theorem C5_witness :
    (changePasswordAdmin [sampleSuper] 1 (some "abcdefgh") (fun x => x) "t1" false).1
      = Resp.serverError
    ∧ (login [sampleSuper] "admin@blockchaininsper.com.br" "pw"
        (fun _ _ => true) "t1" false).1
      = (login [sampleSuper] "admin@blockchaininsper.com.br" "pw"
        (fun _ _ => true) "t1" true).1 := by
  refine ⟨?_, ?_⟩
  · exact (C5_amended.2.2.2.2.2.2.2.2.2.2.2.2.2.2.1
      [sampleSuper] 1 (some "abcdefgh") (fun x => x) "t1").2 rfl
  · exact C5_amended.1 [sampleSuper] "admin@blockchaininsper.com.br" "pw"
      (fun _ _ => true) "t1"

-- ## Claim C6

/-- C6: the id assigned by create is max(existing ids together with 0) plus
one, so it is strictly greater than every existing id (hence unique),
successive creations assign strictly increasing ids, and after deleting the
maximum-id entity the next create reuses that id (concrete instance: from
ids 1 and 2, deleting id 2 makes the next id 2 again). -/
theorem C6_id_assignment (ids : List Int) :
    (∀ x ∈ ids, x < novoId ids)
    ∧ StrictMono (fun n => novoId (idsAfter ids n))
    ∧ novoId (([1, 2] : List Int).filter (fun x => x != 2)) = 2 := by
  refine ⟨?_, ?_, by decide⟩
  · intro x hx
    have h := le_foldr_max ids x hx
    unfold novoId
    omega
  · apply strictMono_nat_of_lt_succ
    intro n
    show novoId (idsAfter ids n) < novoId (idsAfter ids (n + 1))
    have hstep : novoId (idsAfter ids (n + 1))
        = max (novoId (idsAfter ids n)) ((idsAfter ids n).foldr max 0) + 1 := rfl
    have hle : (idsAfter ids n).foldr max 0 ≤ novoId (idsAfter ids n) := by
      unfold novoId
      omega
    rw [hstep, max_eq_left hle]
    omega

/-- C6 witness: the strict-majorization clause evaluated at a concrete
collection. -/
theorem C6_witness : (3 : Int) ∈ ([3, 1] : List Int) ∧ (3 : Int) < novoId [3, 1] := by
  exact ⟨by decide, (C6_id_assignment [3, 1]).1 3 (by decide)⟩

-- ## Claim C9

/-- C9 counterexample: the claim is false as stated.  The events whitelist
loop guards fields only with `!== undefined`, so an update whose titulo is
the empty string is accepted and overwrites the stored titulo with "",
changing the stored value of an empty-in-the-input field. -/
theorem C9_counterexample :
    (atualizaEvento
      [{ id := 1, titulo := Json.str "A", descricao := Json.str "d",
         data := Json.str "2024-01-01", local_ := Json.str "l",
         participantes := Json.str "0", categoria := Json.str "c",
         imagem := Json.str "i", destaque := Json.bool false,
         ativo := Json.bool true, dataFormatada := "f",
         criadoEm := "t0", atualizadoEm := "t0" }]
      1
      { titulo := some (Json.str ""), descricao := none, data := none,
        local_ := none, participantes := none, categoria := none,
        imagem := none, destaque := none, ativo := none }
      (fun _ => "f2") "t1" true).1 = Resp.ok
    ∧ ((atualizaEvento
      [{ id := 1, titulo := Json.str "A", descricao := Json.str "d",
         data := Json.str "2024-01-01", local_ := Json.str "l",
         participantes := Json.str "0", categoria := Json.str "c",
         imagem := Json.str "i", destaque := Json.bool false,
         ativo := Json.bool true, dataFormatada := "f",
         criadoEm := "t0", atualizadoEm := "t0" }]
      1
      { titulo := some (Json.str ""), descricao := none, data := none,
        local_ := none, participantes := none, categoria := none,
        imagem := none, destaque := none, ativo := none }
      (fun _ => "f2") "t1" true).2.headD
        { id := 0, titulo := Json.null, descricao := Json.null,
          data := Json.null, local_ := Json.null, participantes := Json.null,
          categoria := Json.null, imagem := Json.null, destaque := Json.null,
          ativo := Json.null, dataFormatada := "", criadoEm := "",
          atualizadoEm := "" }).titulo = Json.str ""
    ∧ Json.str "" ≠ Json.str "A" := by
  refine ⟨rfl, rfl, ?_⟩
  intro h
  simp at h

/-- C9 (amended): in the events and news whitelist loops, fields absent
(undefined) in the input are left unchanged and fields outside the whitelist
other than the derived dataFormatada and the atualizadoEm stamp (namely id
and criadoEm) are never touched; dataFormatada is re-derived only when the
input data is truthy.  In the admins update the nome/email/role fields are
additionally guarded by truthiness, so an empty string also leaves them
unchanged, and ativo is applied only when it is a boolean.  A present empty
or null value for a whitelisted events/news field, however, is applied (see
the counterexample). -/
theorem C9_amended (e : Evento) (u : EventoUpdate) (n : Noticia)
    (w : NoticiaUpdate) (a : Admin) (v : AdminUpdate)
    (fmt : Json → String) (now : String) :
    (u.titulo = none → (applyEventoUpdate u fmt now e).titulo = e.titulo)
    ∧ (u.descricao = none → (applyEventoUpdate u fmt now e).descricao = e.descricao)
    ∧ (u.data = none → (applyEventoUpdate u fmt now e).data = e.data)
    ∧ (u.local_ = none → (applyEventoUpdate u fmt now e).local_ = e.local_)
    ∧ (u.participantes = none → (applyEventoUpdate u fmt now e).participantes = e.participantes)
    ∧ (u.categoria = none → (applyEventoUpdate u fmt now e).categoria = e.categoria)
    ∧ (u.imagem = none → (applyEventoUpdate u fmt now e).imagem = e.imagem)
    ∧ (u.destaque = none → (applyEventoUpdate u fmt now e).destaque = e.destaque)
    ∧ (u.ativo = none → (applyEventoUpdate u fmt now e).ativo = e.ativo)
    ∧ (applyEventoUpdate u fmt now e).id = e.id
    ∧ (applyEventoUpdate u fmt now e).criadoEm = e.criadoEm
    ∧ (applyEventoUpdate u fmt now e).atualizadoEm = now
    ∧ (truthyOpt u.data = false →
        (applyEventoUpdate u fmt now e).dataFormatada = e.dataFormatada)
    ∧ (w.titulo = none → (applyNoticiaUpdate w fmt now n).titulo = n.titulo)
    ∧ (w.resumo = none → (applyNoticiaUpdate w fmt now n).resumo = n.resumo)
    ∧ (w.conteudo = none → (applyNoticiaUpdate w fmt now n).conteudo = n.conteudo)
    ∧ (w.data = none → (applyNoticiaUpdate w fmt now n).data = n.data)
    ∧ (w.autor = none → (applyNoticiaUpdate w fmt now n).autor = n.autor)
    ∧ (w.categoria = none → (applyNoticiaUpdate w fmt now n).categoria = n.categoria)
    ∧ (w.imagem = none → (applyNoticiaUpdate w fmt now n).imagem = n.imagem)
    ∧ (w.link = none → (applyNoticiaUpdate w fmt now n).link = n.link)
    ∧ (w.destaque = none → (applyNoticiaUpdate w fmt now n).destaque = n.destaque)
    ∧ (w.ativo = none → (applyNoticiaUpdate w fmt now n).ativo = n.ativo)
    ∧ (applyNoticiaUpdate w fmt now n).id = n.id
    ∧ (applyNoticiaUpdate w fmt now n).criadoEm = n.criadoEm
    ∧ (applyNoticiaUpdate w fmt now n).atualizadoEm = now
    ∧ (truthyOpt w.data = false →
        (applyNoticiaUpdate w fmt now n).dataFormatada = n.dataFormatada)
    ∧ ((v.nome = none ∨ v.nome = some "") → (applyAdminUpdate v now a).nome = a.nome)
    ∧ ((v.email = none ∨ v.email = some "") → (applyAdminUpdate v now a).email = a.email)
    ∧ ((v.role = none ∨ v.role = some "") → (applyAdminUpdate v now a).role = a.role)
    ∧ (v.ativo = none → (applyAdminUpdate v now a).ativo = a.ativo)
    ∧ (applyAdminUpdate v now a).id = a.id
    ∧ (applyAdminUpdate v now a).senha = a.senha
    ∧ (applyAdminUpdate v now a).criadoEm = a.criadoEm
    ∧ (applyAdminUpdate v now a).ultimoLogin = a.ultimoLogin
    ∧ (applyAdminUpdate v now a).atualizadoEm = now := by
  refine ⟨?_, ?_, ?_, ?_, ?_, ?_, ?_, ?_, ?_, ?_, ?_, ?_, ?_, ?_, ?_, ?_, ?_, ?_,
    ?_, ?_, ?_, ?_, ?_, ?_, ?_, ?_, ?_, ?_, ?_, ?_, ?_, ?_, ?_, ?_, ?_, ?_⟩
  all_goals try intro h
  all_goals try rcases h with h | h
  all_goals try simp_all [applyEventoUpdate, applyNoticiaUpdate, applyAdminUpdate, jsStrOr]
  all_goals repeat' split
  all_goals simp_all

/-- C9 witness: updates whose fields are all absent leave the stored titulo
of a concrete event and of a concrete news item unchanged. -/
theorem C9_witness :
    (applyEventoUpdate
      { titulo := none, descricao := none, data := none, local_ := none,
        participantes := none, categoria := none, imagem := none,
        destaque := none, ativo := none }
      (fun _ => "f2") "t1"
      { id := 1, titulo := Json.str "A", descricao := Json.str "d",
        data := Json.str "2024-01-01", local_ := Json.str "l",
        participantes := Json.str "0", categoria := Json.str "c",
        imagem := Json.str "i", destaque := Json.bool false,
        ativo := Json.bool true, dataFormatada := "f",
        criadoEm := "t0", atualizadoEm := "t0" }).titulo = Json.str "A"
    ∧ (applyNoticiaUpdate
      { titulo := none, resumo := none, conteudo := none, data := none,
        autor := none, categoria := none, imagem := none, link := none,
        destaque := none, ativo := none }
      (fun _ => "f2") "t1"
      { id := 1, titulo := Json.str "N", resumo := Json.str "r",
        conteudo := Json.str "c", data := Json.str "2024-01-01",
        autor := Json.str "a", categoria := Json.str "c",
        imagem := Json.str "i", link := Json.str "#",
        destaque := Json.bool false, ativo := Json.bool true,
        dataFormatada := "f", criadoEm := "t0",
        atualizadoEm := "t0" }).titulo = Json.str "N" := by
  have h := C9_amended
    { id := 1, titulo := Json.str "A", descricao := Json.str "d",
      data := Json.str "2024-01-01", local_ := Json.str "l",
      participantes := Json.str "0", categoria := Json.str "c",
      imagem := Json.str "i", destaque := Json.bool false,
      ativo := Json.bool true, dataFormatada := "f",
      criadoEm := "t0", atualizadoEm := "t0" }
    { titulo := none, descricao := none, data := none, local_ := none,
      participantes := none, categoria := none, imagem := none,
      destaque := none, ativo := none }
    { id := 1, titulo := Json.str "N", resumo := Json.str "r",
      conteudo := Json.str "c", data := Json.str "2024-01-01",
      autor := Json.str "a", categoria := Json.str "c",
      imagem := Json.str "i", link := Json.str "#",
      destaque := Json.bool false, ativo := Json.bool true,
      dataFormatada := "f", criadoEm := "t0", atualizadoEm := "t0" }
    { titulo := none, resumo := none, conteudo := none, data := none,
      autor := none, categoria := none, imagem := none, link := none,
      destaque := none, ativo := none }
    sampleSuper
    { nome := none, email := none, role := none, ativo := none }
    (fun _ => "f2") "t1"
  exact ⟨h.1 rfl, h.2.2.2.2.2.2.2.2.2.2.2.2.2.1 rfl⟩

-- ## Claim C10

/-- C10: behind the admin gate (role admin or super_admin), the password
reset route sets any existing administrator's password to the hash of the
new password and stamps atualizadoEm, with no constraint tying the caller
to the target and no current-password input at all: the outcome is the
same whatever password the target previously had; the only validations are
that the new password has length at least 8 and the target id exists. -/
theorem C10_password_reset (callerRole : String) (admins : List Admin)
    (id : Int) (a : Admin) (s : String) (hash : String → String) (now : String)
    (hrole : requireAdmin callerRole = true)
    (hfind : admins.find? (fun x => x.id == id) = some a)
    (hlen : 8 ≤ s.length) :
    routePasswordChange callerRole admins id (some s) hash now true
      = (Resp.ok, updateFirst (fun x => x.id == id)
          (fun x => { x with senha := hash s, atualizadoEm := now }) admins)
    ∧ (∀ pre : String,
        (routePasswordChange callerRole
          (updateFirst (fun x => x.id == id) (fun x => { x with senha := pre }) admins)
          id (some s) hash now true).1 = Resp.ok)
    ∧ (∀ s2 : String, s2.length < 8 →
        routePasswordChange callerRole admins id (some s2) hash now true
          = (Resp.badRequest, admins))
    ∧ (∀ id2 : Int, admins.find? (fun x => x.id == id2) = none →
        routePasswordChange callerRole admins id2 (some s) hash now true
          = (Resp.notFound, admins)) := by
  have hnl : ¬ s.length < 8 := by omega
  refine ⟨?_, ?_, ?_, ?_⟩
  · simp [routePasswordChange, changePasswordAdmin, hrole, hfind, hnl, gateSave]
  · intro pre
    have hfind2 := find?_updateFirst (fun x => x.id == id)
      (fun x => { x with senha := pre }) admins a hfind (fun x hx => hx)
    simp [routePasswordChange, changePasswordAdmin, hrole, hfind2, hnl, gateSave]
  · intro s2 h2
    simp [routePasswordChange, changePasswordAdmin, hrole, h2]
  · intro id2 h2
    simp [routePasswordChange, changePasswordAdmin, hrole, h2, hnl]

/-- C10 witness: an admin-role caller resets the super_admin's password with
no current-password check; the stored hash and stamp are updated. -/
theorem C10_witness :
    routePasswordChange "admin" [sampleSuper] 1 (some "abcdefgh")
      (fun x => String.append "H" x) "t2" true
      = (Resp.ok, [{ sampleSuper with senha := "Habcdefgh", atualizadoEm := "t2" }]) := by
  exact ((C10_password_reset "admin" [sampleSuper] 1 sampleSuper "abcdefgh"
    (fun x => String.append "H" x) "t2" rfl rfl (by decide)).1).trans rfl

-- ## Backup/restore supporting lemmas

theorem lookupFile_writeB (fs : List (String × Json)) (n : String) (v : Json) :
    lookupFile (writeB fs n v) n = some v := by
  unfold lookupFile writeB
  induction fs with
  | nil => simp
  | cons p ps ih =>
    by_cases hp : p.1 = n
    · simpa [List.filter_cons, hp] using ih
    · have hne : (p.1 == n) = false := by simp [hp]
      simpa [List.filter_cons, hp, hne] using ih

theorem backupName_ne_empty (t : String) :
    (("backup-" ++ t ++ ".json") == "") = false := by
  apply beq_eq_false_iff_ne.mpr
  intro h
  have h2 := congrArg String.length h
  simp [String.length_append] at h2
  exact absurd h2.1.1 (by decide)

-- Concrete states used by the backup/restore witnesses.
def emptyState : DataState :=
  { eventos := Json.arr [], noticias := Json.arr [], backups := [] }

def c3SampleBackup : Json :=
  Json.obj [("eventos", Json.arr [Json.num 1]), ("noticias", Json.arr [])]

def c3State : DataState :=
  { eventos := Json.arr [], noticias := Json.arr [],
    backups := [("b.json", c3SampleBackup)] }

-- ## Claim C2

/-- C2: creating a backup and immediately restoring the filename it returned
succeeds and leaves the events and news collections equal (as JSON values,
hence byte-for-byte modulo serialization whitespace under the fixed
pretty-printer) to their state at backup time. -/
theorem C2_backup_restore_roundtrip (st : DataState)
    (tsEnc tsIso tsEnc2 tsIso2 : String) (xs ys : List Json)
    (hev : st.eventos = Json.arr xs) (hnt : st.noticias = Json.arr ys) :
    (restore (createBackup st tsEnc tsIso).2.1
      (some (createBackup st tsEnc tsIso).1) tsEnc2 tsIso2).1 = RestoreResp.ok
    ∧ (restore (createBackup st tsEnc tsIso).2.1
        (some (createBackup st tsEnc tsIso).1) tsEnc2 tsIso2).2.1.eventos = st.eventos
    ∧ (restore (createBackup st tsEnc tsIso).2.1
        (some (createBackup st tsEnc tsIso).1) tsEnc2 tsIso2).2.1.noticias = st.noticias := by
  have hdocEv : (snapshotDoc st tsIso).getField "eventos" = some st.eventos := rfl
  have hdocNt : (snapshotDoc st tsIso).getField "noticias" = some st.noticias := rfl
  have hlookup : lookupFile (writeB st.backups ("backup-" ++ tsEnc ++ ".json")
      (snapshotDoc st tsIso)) ("backup-" ++ tsEnc ++ ".json")
      = some (snapshotDoc st tsIso) := lookupFile_writeB _ _ _
  refine ⟨?_, ?_, ?_⟩
  all_goals
    simp [restore, createBackup, backupName_ne_empty, hlookup, hdocEv, hdocNt,
      hev, hnt, truthyOpt, Json.truthy]

/-- C2 witness: the round trip evaluated on a concrete state with empty
collections. -/
theorem C2_witness :
    (restore (createBackup emptyState "TS" "ti").2.1
      (some (createBackup emptyState "TS" "ti").1) "TS2" "ti2").1
      = RestoreResp.ok := by
  exact (C2_backup_restore_roundtrip emptyState
    "TS" "ti" "TS2" "ti2" [] [] rfl rfl).1

-- ## Claim C3

/-- C3: whenever restore succeeds, its sequence of file effects is exactly
the write of the backup-before-restore safety snapshot (containing the
pre-restore events and news collections) followed by the two live-file
writes, so the safety-snapshot write strictly precedes both live writes. -/
theorem C3_snapshot_precedes_live_writes (st : DataState) (f : String)
    (tsEnc tsIso : String)
    (hok : (restore st (some f) tsEnc tsIso).1 = RestoreResp.ok) :
    ∃ ev nt,
      (restore st (some f) tsEnc tsIso).2.2
        = [Eff.writeFile ("backups/" ++ ("backup-before-restore-" ++ tsEnc ++ ".json"))
             (snapshotDoc st tsIso),
           Eff.writeFile "data/eventos.json" ev,
           Eff.writeFile "data/noticias.json" nt] := by
  unfold restore at hok ⊢
  repeat' split at hok
  all_goals simp_all

/-- C3 witness: a concrete successful restore exhibiting the effect order. -/
theorem C3_witness :
    (restore c3State (some "b.json") "TS" "ti").1 = RestoreResp.ok
    ∧ ∃ ev nt,
        (restore c3State (some "b.json") "TS" "ti").2.2
          = [Eff.writeFile ("backups/" ++ ("backup-before-restore-" ++ "TS" ++ ".json"))
               (snapshotDoc c3State "ti"),
             Eff.writeFile "data/eventos.json" ev,
             Eff.writeFile "data/noticias.json" nt] := by
  refine ⟨rfl, ?_⟩
  exact C3_snapshot_precedes_live_writes c3State "b.json" "TS" "ti" rfl

-- ## Claim C8

/-- C8: restoring a filename for which no backup file exists answers 404,
leaves the state (live collections and backup directory) untouched and
performs no file write at all. -/
theorem C8_restore_missing_file (st : DataState) (f : String)
    (tsEnc tsIso : String) (hne : f ≠ "")
    (hmiss : lookupFile st.backups f = none) :
    restore st (some f) tsEnc tsIso = (RestoreResp.notFound, st, []) := by
  unfold restore
  simp [beq_eq_false_iff_ne.mpr hne, hmiss]

/-- C8 witness: a concrete missing filename. -/
theorem C8_witness :
    restore emptyState (some "nope.json") "TS" "ti"
      = (RestoreResp.notFound, emptyState, []) := by
  exact C8_restore_missing_file emptyState "nope.json" "TS" "ti" (by decide) rfl

-- ## Claim C7 supporting lemmas

-- Characters that the codec treats as payload: anything that is not one of
-- the structural characters T, Z, hyphen, colon, period.
def plainChar (c : Char) : Bool :=
  c != 'T' && c != 'Z' && c != '-' && c != ':' && c != '.'

theorem plainChar_digitChar (d : Nat) (hd : d < 10) :
    plainChar (Nat.digitChar d) = true := by
  interval_cases d <;> decide

theorem plainChar_padNum (k n : Nat) : ∀ c ∈ padNum k n, plainChar c = true := by
  intro c hc
  unfold padNum at hc
  rcases List.mem_append.mp hc with hrep | hdig
  · have := List.eq_of_mem_replicate hrep
    subst this
    decide
  · rw [List.mem_reverse] at hdig
    rcases List.mem_map.mp hdig with ⟨d, hd, rfl⟩
    exact plainChar_digitChar d (Nat.digits_lt_base (by norm_num) hd)

theorem not_mem_of_plain (l : List Char) (hl : ∀ x ∈ l, plainChar x = true)
    (c : Char) (hc : plainChar c = false) : c ∉ l := by
  intro hmem
  have := hl c hmem
  rw [hc] at this
  exact Bool.false_ne_true this

theorem not_mem_padNum (k n : Nat) (c : Char) (hc : plainChar c = false) :
    c ∉ padNum k n :=
  not_mem_of_plain _ (plainChar_padNum k n) c hc

theorem encodeChar_plain (c : Char) (hplain : plainChar c = true) :
    encodeChar c = c := by
  unfold plainChar at hplain
  simp only [Bool.and_eq_true, bne_iff_ne, ne_eq] at hplain
  obtain ⟨⟨⟨⟨_, _⟩, _⟩, hcolon⟩, hdot⟩ := hplain
  unfold encodeChar
  rw [if_neg]
  simp [hcolon, hdot]

theorem map_encodeChar_padNum (k n : Nat) :
    List.map encodeChar (padNum k n) = padNum k n := by
  conv_rhs => rw [← List.map_id (padNum k n)]
  apply List.map_congr_left
  intro c hc
  exact encodeChar_plain c (plainChar_padNum k n c hc)

theorem splitOnChar_of_not_mem (sep : Char) (xs : List Char) (hsep : sep ∉ xs) :
    splitOnChar sep xs = [xs] := by
  induction xs with
  | nil => rfl
  | cons c cs ih =>
    rw [List.mem_cons, not_or] at hsep
    obtain ⟨h1, h2⟩ := hsep
    conv_lhs => rw [splitOnChar]
    rw [if_neg (fun hc => h1 hc.symm), ih h2]

theorem splitOnChar_append (sep : Char) (xs ys : List Char) (hsep : sep ∉ xs) :
    splitOnChar sep (xs ++ sep :: ys) = xs :: splitOnChar sep ys := by
  induction xs with
  | nil => simp [splitOnChar]
  | cons c cs ih =>
    rw [List.mem_cons, not_or] at hsep
    obtain ⟨h1, h2⟩ := hsep
    rw [List.cons_append]
    conv_lhs => rw [splitOnChar]
    rw [if_neg (fun hc => h1 hc.symm), ih h2]

theorem removeFirst_append (t : Char) (xs ys : List Char) (ht : t ∉ xs) :
    removeFirst t (xs ++ t :: ys) = xs ++ ys := by
  induction xs with
  | nil => simp [removeFirst]
  | cons c cs ih =>
    rw [List.mem_cons, not_or] at ht
    obtain ⟨h1, h2⟩ := ht
    rw [List.cons_append]
    conv_lhs => rw [removeFirst]
    rw [if_neg (fun hc => h1 hc.symm), ih h2]
    rfl

-- Decoding an encoded timestamp whose date part has no T and whose time
-- groups consist of payload characters reconstructs the colon/period form.
theorem decode_encoded_shape (dp e f g m : List Char)
    (hdp : 'T' ∉ dp)
    (he : ∀ x ∈ e, plainChar x = true) (hf : ∀ x ∈ f, plainChar x = true)
    (hg : ∀ x ∈ g, plainChar x = true) (hm : ∀ x ∈ m, plainChar x = true) :
    decodeTimestamp (dp ++ 'T' :: (e ++ '-' :: (f ++ '-' :: (g ++ '-' :: (m ++ ['Z'])))))
      = some (dp ++ 'T' :: (e ++ ':' :: (f ++ ':' :: (g ++ '.' :: m))) ++ ['Z']) := by
  have hTe := not_mem_of_plain e he 'T' (by decide)
  have hTf := not_mem_of_plain f hf 'T' (by decide)
  have hTg := not_mem_of_plain g hg 'T' (by decide)
  have hTm := not_mem_of_plain m hm 'T' (by decide)
  have hZe := not_mem_of_plain e he 'Z' (by decide)
  have hZf := not_mem_of_plain f hf 'Z' (by decide)
  have hZg := not_mem_of_plain g hg 'Z' (by decide)
  have hZm := not_mem_of_plain m hm 'Z' (by decide)
  have hDe := not_mem_of_plain e he '-' (by decide)
  have hDf := not_mem_of_plain f hf '-' (by decide)
  have hDg := not_mem_of_plain g hg '-' (by decide)
  have hDm := not_mem_of_plain m hm '-' (by decide)
  have hTtime : 'T' ∉ e ++ '-' :: (f ++ '-' :: (g ++ '-' :: (m ++ ['Z']))) := by
    simp [List.mem_append, List.mem_cons, hTe, hTf, hTg, hTm]
  have hmemT : 'T' ∈ dp ++ 'T' :: (e ++ '-' :: (f ++ '-' :: (g ++ '-' :: (m ++ ['Z'])))) := by
    simp
  have hmemZ : 'Z' ∈ dp ++ 'T' :: (e ++ '-' :: (f ++ '-' :: (g ++ '-' :: (m ++ ['Z'])))) := by
    simp
  have hsplitT : splitOnChar 'T'
      (dp ++ 'T' :: (e ++ '-' :: (f ++ '-' :: (g ++ '-' :: (m ++ ['Z'])))))
      = dp :: [e ++ '-' :: (f ++ '-' :: (g ++ '-' :: (m ++ ['Z'])))] := by
    rw [splitOnChar_append 'T' dp _ hdp,
      splitOnChar_of_not_mem 'T' _ hTtime]
  have hZhead : 'Z' ∉ e ++ '-' :: (f ++ '-' :: (g ++ '-' :: m)) := by
    simp [List.mem_append, List.mem_cons, hZe, hZf, hZg, hZm]
  have hzshape : e ++ '-' :: (f ++ '-' :: (g ++ '-' :: (m ++ ['Z'])))
      = (e ++ '-' :: (f ++ '-' :: (g ++ '-' :: m))) ++ 'Z' :: [] := by
    simp
  have hremove : removeFirst 'Z' (e ++ '-' :: (f ++ '-' :: (g ++ '-' :: (m ++ ['Z']))))
      = e ++ '-' :: (f ++ '-' :: (g ++ '-' :: m)) := by
    rw [hzshape, removeFirst_append 'Z' _ _ hZhead, List.append_nil]
  have hsplitDash : splitOnChar '-' (e ++ '-' :: (f ++ '-' :: (g ++ '-' :: m)))
      = [e, f, g, m] := by
    rw [splitOnChar_append '-' e _ hDe, splitOnChar_append '-' f _ hDf,
      splitOnChar_append '-' g _ hDg, splitOnChar_of_not_mem '-' m hDm]
  unfold decodeTimestamp
  rw [if_pos ⟨hmemT, hmemZ⟩]
  simp [hsplitT, hremove, hsplitDash]

theorem encodeChar_dash : encodeChar '-' = '-' := by decide

theorem encodeChar_T : encodeChar 'T' = 'T' := by decide

theorem encodeChar_Z : encodeChar 'Z' = 'Z' := by decide

theorem encodeChar_colon : encodeChar ':' = '-' := by decide

theorem encodeChar_dot : encodeChar '.' = '-' := by decide

-- ## Claim C7

/-- C7: on every instant rendered in the toISOString shape
YYYY-MM-DDTHH:MM:SS.mmmZ, the filename encoding (replace every colon and
period by a hyphen) followed by the parsing step of the backup listing (keep
the date hyphens, turn the time portion's first three hyphens back into
colons and the fourth into a period) reconstructs exactly the original
ISO-8601 instant: decode after encode is the identity. -/
theorem C7_codec (y mo dd hh mi ss ms : Nat) :
    decodeTimestamp (encodeTimestamp (isoChars y mo dd hh mi ss ms))
      = some (isoChars y mo dd hh mi ss ms) := by
  have h4 := not_mem_padNum 4 y 'T' (by decide)
  have h2mo := not_mem_padNum 2 mo 'T' (by decide)
  have h2dd := not_mem_padNum 2 dd 'T' (by decide)
  have hdp : 'T' ∉ padNum 4 y ++ '-' :: (padNum 2 mo ++ '-' :: padNum 2 dd) := by
    simp [List.mem_append, List.mem_cons, h4, h2mo, h2dd]
  have henc : encodeTimestamp (isoChars y mo dd hh mi ss ms)
      = (padNum 4 y ++ '-' :: (padNum 2 mo ++ '-' :: padNum 2 dd))
        ++ 'T' :: (padNum 2 hh ++ '-' :: (padNum 2 mi ++ '-' :: (padNum 2 ss
          ++ '-' :: (padNum 3 ms ++ ['Z'])))) := by
    simp [isoChars, encodeTimestamp, map_encodeChar_padNum, encodeChar_dash,
      encodeChar_T, encodeChar_Z, encodeChar_colon, encodeChar_dot]
  rw [henc,
    decode_encoded_shape (padNum 4 y ++ '-' :: (padNum 2 mo ++ '-' :: padNum 2 dd))
      (padNum 2 hh) (padNum 2 mi) (padNum 2 ss) (padNum 3 ms) hdp
      (plainChar_padNum 2 hh) (plainChar_padNum 2 mi) (plainChar_padNum 2 ss)
      (plainChar_padNum 3 ms)]
  simp [isoChars]
